import Mathlib

/-!
Shallow embedding of the order-confirmation and stock-reservation workflow of
the Autopurchases marketplace backend (Django/DRF application), covering:

- the `Stock`, `Cart` and `Order` rows of `autopurchases/models.py`
  (`Stock.quantity` is a `PositiveIntegerField`: the column is an integer with
  a `>= 0` check constraint, so we model it as `Int` and carry non-negativity
  as an invariant);
- `BaseOrder.save` (models.py:413-415), which recomputes
  `total_price = product.price * quantity` on every save;
- `check_quantity` / `check_availability` (serializers.py:916-927);
- `CartSerializer` validation for POST / PATCH of cart lines
  (serializers.py:636-644);
- `OrderListSerializer.create`, the confirmation engine (serializers.py:721-747);
- `CartViewSet.confirm_order` (views.py:473-489);
- `OrderSerializer.validate_delivery_address`, `validate_status` and `update`
  (serializers.py:893-913) together with Django's
  `Model.save(update_fields=...)` column-restricted write;
- a two-transaction interleaving model of the engine's per-line
  read / check / blind-write sequence, used to analyse the concurrency claim.
-/

set_option linter.unnecessarySeqFocus false

namespace Autopurchases

/-- A `Stock` row (models.py:340-388): quantity (`PositiveIntegerField`,
integer column constrained to be non-negative), unit price
(`PositiveBigIntegerField`) and the `can_buy` availability flag. -/
structure Stock where
  id : Nat
  quantity : Int
  price : Nat
  can_buy : Bool
  deriving Repr, DecidableEq

/-- The stock table: a list of `Stock` rows. -/
abbrev StockDB := List Stock

/-- Row lookup by primary key (first match). -/
def findStock (db : StockDB) (i : Nat) : Option Stock :=
  db.find? (fun s => s.id == i)

/-- `UPDATE stock SET quantity = q WHERE id = i`: the write issued by
`stock.save(update_fields=["quantity"])` (serializers.py:737). -/
def setStockQuantity (db : StockDB) (i : Nat) (q : Int) : StockDB :=
  db.map (fun s => if s.id == i then { s with quantity := q } else s)

/-- A `Cart` row (models.py:391-451): customer, the `select_related`-cached
`Stock` instance (`product.product` in the code), quantity and the
denormalized total price computed by `BaseOrder.save`. -/
structure CartLine where
  id : Nat
  customer : Nat
  product : Stock
  quantity : Nat
  total_price : Nat
  deriving Repr, DecidableEq

/-- An `Order` row (models.py:466-492): snapshot fields plus the delivery
address reference (`Contact` pk) and the status string
(default `"created"`, models.py:483-485). -/
structure Order where
  customer : Nat
  product : Stock
  quantity : Nat
  total_price : Nat
  delivery_address : Nat
  status : String
  deriving Repr, DecidableEq

/-- Error classes surfaced at the API boundary (exceptions.py and DRF):
ValidationError maps to HTTP 400, NotFound to 404, Conflict to 409. -/
inductive ApiError where
  | validation
  | notFound
  | conflict
  deriving Repr, DecidableEq

/-- `check_quantity` (serializers.py:916-920): raises ValidationError iff
`on_stock < in_order`. -/
def check_quantity (on_stock : Int) (in_order : Nat) : Except ApiError Unit :=
  if on_stock < (in_order : Int) then .error .validation else .ok ()

/-- `check_availability` (serializers.py:923-927): raises ValidationError iff
`can_buy` is false. -/
def check_availability (can_buy : Bool) : Except ApiError Unit :=
  if !can_buy then .error .validation else .ok ()

/-- `BaseOrder.save` (models.py:413-415): the stored total price is always
recomputed as `product.price * quantity`, in exact integer arithmetic. -/
def computeTotalPrice (product : Stock) (quantity : Nat) : Nat :=
  product.price * quantity

/-- `stock.refresh_from_db(fields=["quantity", "can_buy"])`
(serializers.py:729): re-reads the row and overwrites exactly the `quantity`
and `can_buy` attributes of the cached instance, leaving `price` untouched. -/
def refreshFromDb (db : StockDB) (s : Stock) : Option Stock :=
  (findStock db s.id).map (fun row => { s with quantity := row.quantity, can_buy := row.can_buy })

/-- The engine's per-line re-validation (serializers.py:730-734):
`check_availability` then `check_quantity`; any ValidationError means the
line is skipped. -/
def revalidate (s : Stock) (q : Nat) : Bool :=
  match check_availability s.can_buy with
  | .error _ => false
  | .ok _ =>
    match check_quantity s.quantity q with
    | .error _ => false
    | .ok _ => true

/-- State threaded through `OrderListSerializer.create`: the stock table,
the orders created so far and the cart lines left in the cart. -/
structure EngineState where
  db : StockDB
  orders : List Order
  remaining : List CartLine
  deriving Repr, DecidableEq

/-- One iteration of the loop in `OrderListSerializer.create`
(serializers.py:726-745): refresh the cached stock instance, re-validate;
on failure skip the line (it stays in the cart); on success, inside one
`transaction.atomic()` block, decrement the stock quantity, create the
`Order` (whose `save` computes `total_price` from the in-memory stock
instance, whose `price` was never refreshed) and delete the cart row. -/
def confirmLine (addr : Nat) (st : EngineState) (line : CartLine) : EngineState :=
  match refreshFromDb st.db line.product with
  | none => { st with remaining := st.remaining ++ [line] }
  | some stock =>
    if revalidate stock line.quantity then
      let stockAfter : Stock := { stock with quantity := stock.quantity - (line.quantity : Int) }
      let order : Order :=
        { customer := line.customer
          product := stockAfter
          quantity := line.quantity
          total_price := computeTotalPrice stockAfter line.quantity
          delivery_address := addr
          status := "created" }
      { db := setStockQuantity st.db stockAfter.id stockAfter.quantity
        orders := st.orders ++ [order]
        remaining := st.remaining }
    else
      { st with remaining := st.remaining ++ [line] }

/-- `OrderListSerializer.create` (serializers.py:721-747): fold the per-line
confirmation over the customer's cart, in listing order. -/
def confirmCreate (addr : Nat) (db : StockDB) (cart : List CartLine) : EngineState :=
  cart.foldl (confirmLine addr) ⟨db, [], []⟩

/-- Outcome of `CartViewSet.confirm_order`: HTTP status, the created orders,
the stock table and the cart after the request. -/
structure ConfirmResponse where
  status : Nat
  orders : List Order
  db : StockDB
  cart : List CartLine
  deriving Repr, DecidableEq

/-- `CartViewSet.confirm_order` (views.py:473-489): NotFound (404) on an
empty cart; otherwise run `OrderListSerializer.create`; Conflict (409) when
no order was created; 201 with the created orders otherwise. -/
def confirm_order (db : StockDB) (cart : List CartLine) (addr : Nat) : ConfirmResponse :=
  if cart.isEmpty then ⟨404, [], db, cart⟩
  else
    let r := confirmCreate addr db cart
    if r.orders.isEmpty then ⟨409, [], r.db, r.remaining⟩
    else ⟨201, r.orders, r.db, r.remaining⟩

/-- DRF field validation for `Cart.quantity`: the model field is a
`PositiveIntegerField` (models.py:404), which DRF maps to an integer field
with `min_value = 0` and `max_value = 2147483647` (the integer column
range). -/
def quantityFieldValid (q : Int) : Bool :=
  0 ≤ q && q ≤ 2147483647

/-- `POST /cart` (CartSerializer, serializers.py:636-644): field validation
of `quantity`, resolution of the `product` pk, then the object-level
`validate` running `check_availability` and `check_quantity`; on success the
created row's `total_price` is computed by `BaseOrder.save`. -/
def addLine (db : StockDB) (customer : Nat) (stockId : Nat) (idNew : Nat) (q : Int) :
    Except ApiError CartLine :=
  if quantityFieldValid q = false then .error .validation
  else
    match findStock db stockId with
    | none => .error .validation
    | some stock =>
      match check_availability stock.can_buy with
      | .error e => .error e
      | .ok _ =>
        match check_quantity stock.quantity q.toNat with
        | .error e => .error e
        | .ok _ =>
          .ok { id := idNew, customer := customer, product := stock, quantity := q.toNat,
                total_price := computeTotalPrice stock q.toNat }

/-- `PATCH /cart/{id}` with a `{product, quantity}` payload
(CartSerializer.validate, serializers.py:636-640): the same two checks are
re-run against current stock and the row is re-saved. -/
def updateLine (db : StockDB) (line : CartLine) (stockId : Nat) (q : Int) :
    Except ApiError CartLine :=
  if quantityFieldValid q = false then .error .validation
  else
    match findStock db stockId with
    | none => .error .validation
    | some stock =>
      match check_availability stock.can_buy with
      | .error e => .error e
      | .ok _ =>
        match check_quantity stock.quantity q.toNat with
        | .error e => .error e
        | .ok _ =>
          .ok { line with
                product := stock
                quantity := q.toNat
                total_price := computeTotalPrice stock q.toNat }

/-- Re-fetch of a stored cart row at confirmation-request time
(`Cart.objects.with_dependencies()`, views.py:470,475): the cached
`product` instance is the stock row as currently in the database. -/
def fetchCartLine (db : StockDB) (row : CartLine) : Option CartLine :=
  (findStock db row.product.id).map (fun s => { row with product := s })

/-- Payload of a PATCH on an existing order
(`PATCH /shop/{slug}/orders/{id}`, views.py:311-332): the only writable
fields of `OrderSerializer` are `delivery_address` and `status`
(serializers.py:797-811, the rest are read-only); each is present or
absent in the partial-update payload. -/
structure OrderPatchPayload where
  delivery_address : Option Nat
  status : Option String
  deriving Repr, DecidableEq

/-- `OrderSerializer.validate_delivery_address` (serializers.py:893-899):
on a PATCH request a provided delivery address is always rejected with
ValidationError. -/
def validate_delivery_address (isPatch : Bool) (v : Nat) : Except ApiError Nat :=
  if isPatch then .error .validation else .ok v

/-- `OrderSerializer.validate_status` (serializers.py:901-907): a status
value is accepted only on the shop route. -/
def validate_status (pathIsShop : Bool) (v : String) : Except ApiError String :=
  if !pathIsShop then .error .validation else .ok v

/-- The columns of the `Order` row, for Django's
`Model.save(update_fields=...)`. -/
inductive OrderField where
  | customer
  | product
  | quantity
  | total_price
  | delivery_address
  | status
  deriving Repr, DecidableEq

/-- Write a single column of the stored row from the in-memory instance. -/
def writeField (stored inst : Order) (f : OrderField) : Order :=
  match f with
  | .customer => { stored with customer := inst.customer }
  | .product => { stored with product := inst.product }
  | .quantity => { stored with quantity := inst.quantity }
  | .total_price => { stored with total_price := inst.total_price }
  | .delivery_address => { stored with delivery_address := inst.delivery_address }
  | .status => { stored with status := inst.status }

/-- Django `Model.save(update_fields=fs)`: only the listed columns are
written to the stored row; every other column keeps its stored value. -/
def persistUpdateFields (stored inst : Order) (fs : List OrderField) : Order :=
  fs.foldl (fun row f => writeField row inst f) stored

/-- `BaseOrder.save` on an update (models.py:413-415): `total_price` is
recomputed on the in-memory instance, then the row is written restricted to
`update_fields`. -/
def baseOrderSaveUpdate (stored inst : Order) (fs : List OrderField) : Order :=
  persistUpdateFields stored
    { inst with total_price := computeTotalPrice inst.product inst.quantity } fs

/-- `OrderSerializer.update` (serializers.py:909-913): set each provided
attribute on the instance, then `instance.save(update_fields=validated_data.keys())`
(keys in serializer field order: `delivery_address` before `status`). -/
def orderSerializerUpdate (stored : Order) (vd : OrderPatchPayload) : Order :=
  let inst : Order :=
    { stored with
      delivery_address := vd.delivery_address.getD stored.delivery_address
      status := vd.status.getD stored.status }
  let fs : List OrderField :=
    (match vd.delivery_address with
     | some _ => [OrderField.delivery_address]
     | none => []) ++
    (match vd.status with
     | some _ => [OrderField.status]
     | none => [])
  baseOrderSaveUpdate stored inst fs

/-- Field-level validation of a PATCH payload
(DRF runs `validate_<field>` for each provided field; method is PATCH). -/
def patchValidate (pathIsShop : Bool) (payload : OrderPatchPayload) :
    Except ApiError OrderPatchPayload :=
  match payload.delivery_address with
  | some a =>
    match validate_delivery_address true a with
    | .error e => .error e
    | .ok a' =>
      match payload.status with
      | some s =>
        match validate_status pathIsShop s with
        | .error e => .error e
        | .ok s' => .ok { delivery_address := some a', status := some s' }
      | none => .ok { delivery_address := some a', status := none }
  | none =>
    match payload.status with
    | some s =>
      match validate_status pathIsShop s with
      | .error e => .error e
      | .ok s' => .ok { delivery_address := none, status := some s' }
    | none => .ok { delivery_address := none, status := none }

/-- `ShopViewSet.update_shop_order_status` (views.py:311-332) for an
existing order: validate the partial payload, then apply
`OrderSerializer.update`; a ValidationError leaves the stored row
untouched. The result carries the stored row after the request. -/
def patchOrder (pathIsShop : Bool) (stored : Order) (payload : OrderPatchPayload) :
    Except ApiError Order :=
  match patchValidate pathIsShop payload with
  | .error e => .error e
  | .ok vd => .ok (orderSerializerUpdate stored vd)

/-!
Interleaving model of the engine's per-line critical section
(serializers.py:726-737), for two confirmation requests racing on the same
stock row. Each transaction executes, in order:

1. `stock.refresh_from_db(fields=["quantity", "can_buy"])` — a plain
   `SELECT` with no row lock (`select_for_update` is not used anywhere in
   the repository);
2. the checks, then `stock.quantity -= q` and
   `stock.save(update_fields=["quantity"])` — an `UPDATE ... SET quantity = v`
   writing the value computed in Python from the earlier read, followed by
   the commit of its `transaction.atomic()` block.

Under read-committed isolation the scheduler may run any interleaving of
these steps in which each transaction's read precedes its write.
-/

/-- Local state of one in-flight confirmation transaction: the quantity it
has read (if it has reached step 1), whether it has finished, and whether
it created its order. -/
structure TxLocal where
  readQty : Option Int
  finished : Bool
  ordered : Bool
  deriving Repr, DecidableEq

/-- Shared state: the stock row's committed quantity and availability flag,
plus the two transactions' local states. -/
structure ConcState where
  dbQty : Int
  dbCanBuy : Bool
  t1 : TxLocal
  t2 : TxLocal
  deriving Repr, DecidableEq

/-- Advance one transaction by one step, returning its new local state and
the new committed quantity of the row. Step 1 reads the committed value;
step 2 re-runs the two checks on the value it read and, if they pass,
blindly writes `read - q` and commits (serializers.py:735-737); if they
fail it skips the line. -/
def txAdvance (q : Nat) (dbQty : Int) (dbCanBuy : Bool) (l : TxLocal) : TxLocal × Int :=
  match l.readQty with
  | none => ({ l with readQty := some dbQty }, dbQty)
  | some r =>
    if l.finished then (l, dbQty)
    else
      match check_availability dbCanBuy with
      | .error _ => ({ l with finished := true }, dbQty)
      | .ok _ =>
        match check_quantity r q with
        | .error _ => ({ l with finished := true }, dbQty)
        | .ok _ => ({ l with finished := true, ordered := true }, r - (q : Int))

/-- One scheduler step: `true` advances transaction 1, `false` transaction 2. -/
def concStep (q1 q2 : Nat) (s : ConcState) (which : Bool) : ConcState :=
  if which then
    let p := txAdvance q1 s.dbQty s.dbCanBuy s.t1
    { s with t1 := p.1, dbQty := p.2 }
  else
    let p := txAdvance q2 s.dbQty s.dbCanBuy s.t2
    { s with t2 := p.1, dbQty := p.2 }

/-- Run a schedule of interleaved steps of two confirmation transactions
ordering `q1` and `q2` units against one stock row with initial quantity
`init`. -/
def runConc (q1 q2 : Nat) (init : Int) (canBuy : Bool) (sched : List Bool) : ConcState :=
  sched.foldl (concStep q1 q2) ⟨init, canBuy, ⟨none, false, false⟩, ⟨none, false, false⟩⟩

/-! Helper lemmas about the engine step. -/

theorem revalidate_true_iff (s : Stock) (q : Nat) :
    revalidate s q = true ↔ s.can_buy = true ∧ (q : Int) ≤ s.quantity := by
  unfold revalidate check_availability check_quantity
  cases hc : s.can_buy <;> by_cases hq : s.quantity < (q : Int) <;> simp [hq] <;> omega

theorem revalidate_false_iff (s : Stock) (q : Nat) :
    revalidate s q = false ↔ s.can_buy = false ∨ s.quantity < (q : Int) := by
  rw [← Bool.not_eq_true, revalidate_true_iff]
  constructor
  · intro h
    by_cases hc : s.can_buy = true
    · exact Or.inr (by push_neg at h; exact h hc)
    · exact Or.inl (Bool.not_eq_true _ ▸ hc)
  · rintro (h | h) <;> intro hk
    · exact absurd hk.1 (by simp [h])
    · exact absurd hk.2 (not_le.mpr h)

theorem refreshFromDb_some (db : StockDB) (s row : Stock)
    (h : findStock db s.id = some row) :
    refreshFromDb db s = some { s with quantity := row.quantity, can_buy := row.can_buy } := by
  unfold refreshFromDb
  rw [h]
  rfl

theorem findStock_mem (db : StockDB) (i : Nat) (row : Stock)
    (h : findStock db i = some row) : row ∈ db :=
  List.mem_of_find?_eq_some h

theorem findStock_setStockQuantity_same (db : StockDB) (i : Nat) (q : Int) :
    findStock (setStockQuantity db i q) i
      = (findStock db i).map (fun s => { s with quantity := q }) := by
  induction db with
  | nil => rfl
  | cons hd tl ih =>
    by_cases h : hd.id = i
    · simp [findStock, setStockQuantity, List.find?, h]
    · have hb : (hd.id == i) = false := by simp [h]
      simp only [findStock, setStockQuantity, List.map_cons, List.find?, hb, if_neg]
      simpa [findStock, setStockQuantity, hb] using ih

theorem mem_setStockQuantity (db : StockDB) (i : Nat) (q : Int) (s' : Stock)
    (h : s' ∈ setStockQuantity db i q) :
    s' ∈ db ∨ ∃ s ∈ db, s' = { s with quantity := q } := by
  unfold setStockQuantity at h
  rcases List.mem_map.mp h with ⟨s, hs, hmap⟩
  by_cases hid : s.id = i
  · right
    have hb : (s.id == i) = true := by simp [hid]
    simp only [hb, if_true] at hmap
    exact ⟨s, hs, hmap.symm⟩
  · left
    have : (s.id == i) = false := by simp [hid]
    simp [this] at hmap
    exact hmap ▸ hs

theorem confirmLine_skip (addr : Nat) (st : EngineState) (line : CartLine) (row : Stock)
    (hfind : findStock st.db line.product.id = some row)
    (hfail : row.can_buy = false ∨ row.quantity < (line.quantity : Int)) :
    confirmLine addr st line = { st with remaining := st.remaining ++ [line] } := by
  unfold confirmLine
  rw [refreshFromDb_some st.db line.product row hfind]
  have hv : revalidate { line.product with quantity := row.quantity, can_buy := row.can_buy }
      line.quantity = false := by
    rw [revalidate_false_iff]
    exact hfail
  simp [hv]

theorem confirmLine_pass (addr : Nat) (st : EngineState) (line : CartLine) (row : Stock)
    (hfind : findStock st.db line.product.id = some row)
    (hbuy : row.can_buy = true) (hq : (line.quantity : Int) ≤ row.quantity) :
    confirmLine addr st line =
      { db := setStockQuantity st.db line.product.id (row.quantity - (line.quantity : Int))
        orders := st.orders ++
          [{ customer := line.customer
             product := { line.product with
                          quantity := row.quantity - (line.quantity : Int)
                          can_buy := row.can_buy }
             quantity := line.quantity
             total_price := line.product.price * line.quantity
             delivery_address := addr
             status := "created" }]
        remaining := st.remaining } := by
  unfold confirmLine
  rw [refreshFromDb_some st.db line.product row hfind]
  have hv : revalidate { line.product with quantity := row.quantity, can_buy := row.can_buy }
      line.quantity = true := by
    rw [revalidate_true_iff]
    exact ⟨hbuy, hq⟩
  simp [hv, computeTotalPrice]

theorem confirmLine_shape (addr : Nat) (st : EngineState) (line : CartLine) :
    ((confirmLine addr st line).remaining = st.remaining ∧
      ∃ o, (confirmLine addr st line).orders = st.orders ++ [o] ∧
        o.total_price = o.product.price * o.quantity)
    ∨ ((confirmLine addr st line).remaining = st.remaining ++ [line] ∧
       (confirmLine addr st line).orders = st.orders ∧
       (confirmLine addr st line).db = st.db) := by
  unfold confirmLine
  cases refreshFromDb st.db line.product with
  | none => exact Or.inr ⟨rfl, rfl, rfl⟩
  | some stock =>
    by_cases hv : revalidate stock line.quantity = true
    · left
      refine ⟨by simp [hv],
        ⟨{ customer := line.customer
           product := { stock with quantity := stock.quantity - (line.quantity : Int) }
           quantity := line.quantity
           total_price := computeTotalPrice
             { stock with quantity := stock.quantity - (line.quantity : Int) } line.quantity
           delivery_address := addr
           status := "created" }, by simp [hv], ?_⟩⟩
      simp [computeTotalPrice]
    · right
      have hv' : revalidate stock line.quantity = false := by
        simpa using hv
      simp [hv']

theorem confirmLine_len (addr : Nat) (st : EngineState) (line : CartLine) :
    (confirmLine addr st line).orders.length + (confirmLine addr st line).remaining.length
      = st.orders.length + st.remaining.length + 1 := by
  rcases confirmLine_shape addr st line with ⟨hrem, o, hord, _⟩ | ⟨hrem, hord, _⟩ <;>
    rw [hrem, hord] <;> simp <;> omega

theorem foldl_confirm_len (addr : Nat) (cart : List CartLine) : ∀ st : EngineState,
    (cart.foldl (confirmLine addr) st).orders.length +
      (cart.foldl (confirmLine addr) st).remaining.length
      = st.orders.length + st.remaining.length + cart.length := by
  induction cart with
  | nil => intro st; simp
  | cons l ls ih =>
    intro st
    have h := confirmLine_len addr st l
    simp only [List.foldl_cons, List.length_cons]
    rw [ih (confirmLine addr st l)]
    omega

theorem foldl_confirm_remaining_sublist (addr : Nat) (cart : List CartLine) :
    ∀ st : EngineState,
    ∃ t, (cart.foldl (confirmLine addr) st).remaining = st.remaining ++ t ∧ t.Sublist cart := by
  induction cart with
  | nil => intro st; exact ⟨[], by simp, List.nil_sublist _⟩
  | cons l ls ih =>
    intro st
    rcases ih (confirmLine addr st l) with ⟨t, ht, hsub⟩
    rcases confirmLine_shape addr st l with ⟨hrem, _⟩ | ⟨hrem, _, _⟩
    · refine ⟨t, ?_, hsub.trans (List.sublist_cons_self l ls)⟩
      simp only [List.foldl_cons]
      rw [ht, hrem]
    · refine ⟨l :: t, ?_, List.Sublist.cons₂ l hsub⟩
      simp only [List.foldl_cons]
      rw [ht, hrem]
      simp

theorem confirmLine_nonneg (addr : Nat) (st : EngineState) (line : CartLine)
    (h : ∀ s ∈ st.db, 0 ≤ s.quantity) :
    ∀ s ∈ (confirmLine addr st line).db, 0 ≤ s.quantity := by
  unfold confirmLine
  cases hf : refreshFromDb st.db line.product with
  | none => exact h
  | some stock =>
    by_cases hv : revalidate stock line.quantity = true
    · simp only [hv, if_true]
      intro s hs
      have hq0 : 0 ≤ stock.quantity - (line.quantity : Int) := by
        have h1 := (revalidate_true_iff stock line.quantity).mp hv
        have h2 : (0 : Int) ≤ (line.quantity : Int) := Int.ofNat_nonneg _
        omega
      rcases mem_setStockQuantity _ _ _ _ hs with hmem | ⟨s0, hs0, rfl⟩
      · exact h s hmem
      · simpa using hq0
    · have hv' : revalidate stock line.quantity = false := by
        simpa using hv
      simp only [hv', if_false]
      exact h

theorem foldl_confirm_nonneg (addr : Nat) (cart : List CartLine) : ∀ st : EngineState,
    (∀ s ∈ st.db, 0 ≤ s.quantity) →
    ∀ s ∈ (cart.foldl (confirmLine addr) st).db, 0 ≤ s.quantity := by
  induction cart with
  | nil => intro st h; exact h
  | cons l ls ih =>
    intro st h
    simp only [List.foldl_cons]
    exact ih (confirmLine addr st l) (confirmLine_nonneg addr st l h)

theorem foldl_confirm_allfail (addr : Nat) (cart : List CartLine) : ∀ st : EngineState,
    (∀ l ∈ cart, ∃ row, findStock st.db l.product.id = some row ∧
      (row.can_buy = false ∨ row.quantity < (l.quantity : Int))) →
    cart.foldl (confirmLine addr) st = { st with remaining := st.remaining ++ cart } := by
  induction cart with
  | nil => intro st _; simp
  | cons l ls ih =>
    intro st hall
    rcases hall l (List.mem_cons_self l ls) with ⟨row, hfind, hfail⟩
    have hskip := confirmLine_skip addr st l row hfind hfail
    simp only [List.foldl_cons, hskip]
    rw [ih { st with remaining := st.remaining ++ [l] }
      (fun l' hl' => hall l' (List.mem_cons_of_mem _ hl'))]
    simp

/-! Claim theorems. -/

/-- C1: Partial success of confirmation: for a cart of N lines of which
exactly K fail re-validation at confirmation time, the engine creates
exactly N−K Orders and deletes exactly the N−K corresponding cart lines:
the number of created orders plus the number of lines left in the cart is
N, the leftover lines are original cart lines unchanged and in order (a
sublist of the cart), a line whose freshly re-read stock has `can_buy`
false or quantity below the line's quantity is skipped — no Order created,
no cart line deleted, nothing else of the state touched — and a line
passing the re-validation creates exactly one Order and deletes only its
own cart line. -/
theorem confirm_success_counts (addr : Nat) (db : StockDB) (cart : List CartLine) :
    (confirmCreate addr db cart).orders.length
        + (confirmCreate addr db cart).remaining.length = cart.length
    ∧ (confirmCreate addr db cart).remaining.Sublist cart
    ∧ (∀ (st : EngineState) (line : CartLine) (row : Stock),
        findStock st.db line.product.id = some row →
        ((row.can_buy = false ∨ row.quantity < (line.quantity : Int)) →
          confirmLine addr st line = { st with remaining := st.remaining ++ [line] })
        ∧ (row.can_buy = true → (line.quantity : Int) ≤ row.quantity →
          (confirmLine addr st line).remaining = st.remaining ∧
          ∃ o, (confirmLine addr st line).orders = st.orders ++ [o])) := by
  refine ⟨?_, ?_, ?_⟩
  · simpa [confirmCreate] using foldl_confirm_len addr cart ⟨db, [], []⟩
  · rcases foldl_confirm_remaining_sublist addr cart ⟨db, [], []⟩ with ⟨t, ht, hsub⟩
    have : (confirmCreate addr db cart).remaining = t := by
      simpa [confirmCreate] using ht
    rw [this]
    exact hsub
  · intro st line row hfind
    refine ⟨fun hfail => confirmLine_skip addr st line row hfind hfail, fun hbuy hq => ?_⟩
    rw [confirmLine_pass addr st line row hfind hbuy hq]
    exact ⟨rfl, ⟨_, rfl⟩⟩

/-- Witness for C1 at a concrete failing line: a cart line whose stock is
unavailable is skipped, creating no order and staying in the cart. -/
theorem confirm_success_counts_witness :
    confirmLine 0 ⟨[⟨1, 0, 10, false⟩], [], []⟩ ⟨5, 7, ⟨1, 0, 10, false⟩, 2, 20⟩
      = ⟨[⟨1, 0, 10, false⟩], [], [⟨5, 7, ⟨1, 0, 10, false⟩, 2, 20⟩]⟩ :=
  ((confirm_success_counts 0 [] []).2.2 ⟨[⟨1, 0, 10, false⟩], [], []⟩
      ⟨5, 7, ⟨1, 0, 10, false⟩, 2, 20⟩ ⟨1, 0, 10, false⟩ (by decide)).1 (Or.inl (by decide))

/-- C2 (refuted by the code, see the counterexample run): the engine's
per-line critical section is a plain read (`refresh_from_db`), a check in
Python, and a blind `UPDATE` of the value computed from that read, with no
row lock and no conditional update; interleaving two such transactions on
one stock row with quantity 5 lets both a 3-unit and a 4-unit confirmation
succeed (7 > 5 units decremented in sum), with the final committed quantity
1 — a lost update instead of 5 − 7. -/
theorem conc_oversell_lost_update :
    (runConc 3 4 5 true [true, false, true, false]).t1.ordered = true ∧
    (runConc 3 4 5 true [true, false, true, false]).t2.ordered = true ∧
    (runConc 3 4 5 true [true, false, true, false]).dbQty = 1 ∧
    3 + 4 > 5 ∧
    (runConc 3 4 5 true [true, false, true, false]).dbQty ≠ 5 - (3 + 4) := by
  decide

/-- C3: Exact decrement and non-negative stock, sequentially: a cart line
passing re-validation leaves the stock row at its freshly re-read quantity
minus the line's quantity; a failing line leaves the stock table untouched;
and a full engine run keeps every stock quantity non-negative. -/
theorem confirm_decrement_exact :
    (∀ (addr : Nat) (st : EngineState) (line : CartLine) (row : Stock),
      findStock st.db line.product.id = some row →
      (row.can_buy = true → (line.quantity : Int) ≤ row.quantity →
        findStock (confirmLine addr st line).db line.product.id
          = some { row with quantity := row.quantity - (line.quantity : Int) })
      ∧ ((row.can_buy = false ∨ row.quantity < (line.quantity : Int)) →
        (confirmLine addr st line).db = st.db))
    ∧ (∀ (addr : Nat) (db : StockDB) (cart : List CartLine),
      (∀ s ∈ db, 0 ≤ s.quantity) →
      ∀ s ∈ (confirmCreate addr db cart).db, 0 ≤ s.quantity) := by
  constructor
  · intro addr st line row hfind
    constructor
    · intro hbuy hq
      rw [confirmLine_pass addr st line row hfind hbuy hq]
      show findStock (setStockQuantity st.db line.product.id _) line.product.id = _
      rw [findStock_setStockQuantity_same, hfind]
      rfl
    · intro hfail
      rw [confirmLine_skip addr st line row hfind hfail]
  · intro addr db cart h
    exact foldl_confirm_nonneg addr cart ⟨db, [], []⟩ h

/-- Witness for C3 at a concrete passing line: stock quantity 5, line
quantity 2, resulting stored quantity 3 = 5 − 2. -/
theorem confirm_decrement_exact_witness :
    findStock (confirmLine 9 ⟨[⟨1, 5, 10, true⟩], [], []⟩
      ⟨3, 7, ⟨1, 5, 10, true⟩, 2, 20⟩).db 1 = some ⟨1, 3, 10, true⟩ :=
  (confirm_decrement_exact.1 9 ⟨[⟨1, 5, 10, true⟩], [], []⟩
    ⟨3, 7, ⟨1, 5, 10, true⟩, 2, 20⟩ ⟨1, 5, 10, true⟩ (by decide)).1 (by decide) (by decide)

/-- C4: All-fail yields Conflict atomically: on a non-empty cart in which
every line fails re-validation against the stock table, `confirm_order`
returns 409 with zero orders, the stock table unchanged and every cart
line intact; conversely, whenever at least one order is created the call
returns 201 with the created orders. -/
theorem confirm_all_fail_conflict :
    (∀ (db : StockDB) (cart : List CartLine) (addr : Nat),
      cart ≠ [] →
      (∀ l ∈ cart, ∃ row, findStock db l.product.id = some row ∧
        (row.can_buy = false ∨ row.quantity < (l.quantity : Int))) →
      confirm_order db cart addr = ⟨409, [], db, cart⟩)
    ∧ (∀ (db : StockDB) (cart : List CartLine) (addr : Nat),
      (confirmCreate addr db cart).orders ≠ [] →
      (confirm_order db cart addr).status = 201 ∧
      (confirm_order db cart addr).orders = (confirmCreate addr db cart).orders) := by
  constructor
  · intro db cart addr hne hall
    have hrun : confirmCreate addr db cart = ⟨db, [], cart⟩ := by
      simpa [confirmCreate] using foldl_confirm_allfail addr cart ⟨db, [], []⟩ hall
    have h1 : cart.isEmpty = false := by
      cases cart with
      | nil => exact absurd rfl hne
      | cons a l => rfl
    simp [confirm_order, h1, hrun]
  · intro db cart addr hord
    have hne : cart ≠ [] := by
      intro hnil
      exact hord (by rw [hnil]; rfl)
    have h1 : cart.isEmpty = false := by
      cases cart with
      | nil => exact absurd rfl hne
      | cons a l => rfl
    have h2 : (confirmCreate addr db cart).orders.isEmpty = false := by
      cases horders : (confirmCreate addr db cart).orders with
      | nil => exact absurd horders hord
      | cons a l => rfl
    constructor <;> simp [confirm_order, h1, h2]

/-- Witness for C4 at a concrete all-fail cart: one line, stock
unavailable, yielding 409 with nothing changed. -/
theorem confirm_all_fail_conflict_witness :
    confirm_order [⟨1, 5, 10, false⟩] [⟨3, 7, ⟨1, 5, 10, false⟩, 2, 20⟩] 9
      = ⟨409, [], [⟨1, 5, 10, false⟩], [⟨3, 7, ⟨1, 5, 10, false⟩, 2, 20⟩]⟩ :=
  confirm_all_fail_conflict.1 [⟨1, 5, 10, false⟩] [⟨3, 7, ⟨1, 5, 10, false⟩, 2, 20⟩] 9
    (by decide)
    (by
      intro l hl
      rw [List.mem_singleton] at hl
      subst hl
      exact ⟨⟨1, 5, 10, false⟩, by decide, Or.inl rfl⟩)

/-- C5: Empty cart is rejected: confirming an empty cart returns NotFound
(404), creates zero orders and leaves the stock table and the cart exactly
as they were. -/
theorem confirm_empty_cart_notfound (db : StockDB) (addr : Nat) :
    confirm_order db [] addr = ⟨404, [], db, []⟩ := rfl

theorem addLine_ok_total (db : StockDB) (c sid idn : Nat) (q : Int) (line : CartLine)
    (h : addLine db c sid idn q = .ok line) :
    line.total_price = line.product.price * line.quantity := by
  unfold addLine at h
  split at h
  · cases h
  · split at h
    · cases h
    · split at h
      · cases h
      · split at h
        · cases h
        · cases h
          simp [computeTotalPrice]

theorem updateLine_ok_total (db : StockDB) (line0 : CartLine) (sid : Nat) (q : Int)
    (line : CartLine) (h : updateLine db line0 sid q = .ok line) :
    line.total_price = line.product.price * line.quantity := by
  unfold updateLine at h
  split at h
  · cases h
  · split at h
    · cases h
    · split at h
      · cases h
      · split at h
        · cases h
        · cases h
          simp [computeTotalPrice]

theorem foldl_confirm_orders_total (addr : Nat) (cart : List CartLine) :
    ∀ st : EngineState,
    (∀ o ∈ st.orders, o.total_price = o.product.price * o.quantity) →
    ∀ o ∈ (cart.foldl (confirmLine addr) st).orders,
      o.total_price = o.product.price * o.quantity := by
  induction cart with
  | nil => intro st h; exact h
  | cons l ls ih =>
    intro st h
    simp only [List.foldl_cons]
    apply ih
    rcases confirmLine_shape addr st l with ⟨_, o, hord, hto⟩ | ⟨_, hord, _⟩
    · rw [hord]
      intro o' ho'
      rcases List.mem_append.mp ho' with h1 | h1
      · exact h o' h1
      · rw [List.mem_singleton] at h1
        subst h1
        exact hto
    · rw [hord]
      exact h

/-- C6: Total price derivation: every cart line created by `POST /cart` or
re-saved by `PATCH /cart/{id}` and every order created by the confirmation
engine stores `total_price` equal to its quantity times the referenced
stock instance's unit price at the time of the save, in exact natural
number arithmetic. -/
theorem total_price_derivation :
    (∀ (db : StockDB) (c sid idn : Nat) (q : Int) (line : CartLine),
      addLine db c sid idn q = .ok line →
      line.total_price = line.product.price * line.quantity)
    ∧ (∀ (db : StockDB) (line0 : CartLine) (sid : Nat) (q : Int) (line : CartLine),
      updateLine db line0 sid q = .ok line →
      line.total_price = line.product.price * line.quantity)
    ∧ (∀ (addr : Nat) (db : StockDB) (cart : List CartLine) (o : Order),
      o ∈ (confirmCreate addr db cart).orders →
      o.total_price = o.product.price * o.quantity) := by
  refine ⟨addLine_ok_total, updateLine_ok_total, ?_⟩
  intro addr db cart o ho
  exact foldl_confirm_orders_total addr cart ⟨db, [], []⟩ (by intro o' h; cases h) o ho

/-- Witness for C6 at a concrete cart-add: price 10, quantity 2, stored
total price 20 = 10 × 2. -/
theorem total_price_derivation_witness :
    (⟨42, 7, ⟨1, 5, 10, true⟩, 2, 20⟩ : CartLine).total_price
      = (⟨42, 7, ⟨1, 5, 10, true⟩, 2, 20⟩ : CartLine).product.price
        * (⟨42, 7, ⟨1, 5, 10, true⟩, 2, 20⟩ : CartLine).quantity :=
  total_price_derivation.1 [⟨1, 5, 10, true⟩] 7 1 42 2
    ⟨42, 7, ⟨1, 5, 10, true⟩, 2, 20⟩ rfl

theorem patchOrder_ok_inv (b : Bool) (stored : Order) (payload : OrderPatchPayload)
    (res : Order) (h : patchOrder b stored payload = .ok res) :
    payload.delivery_address = none
      ∧ res = orderSerializerUpdate stored ⟨none, payload.status⟩ := by
  unfold patchOrder patchValidate at h
  cases hda : payload.delivery_address with
  | some a =>
    rw [hda] at h
    simp [validate_delivery_address] at h
  | none =>
    rw [hda] at h
    cases hst : payload.status with
    | none =>
      rw [hst] at h
      cases h
      exact ⟨rfl, rfl⟩
    | some s =>
      rw [hst] at h
      unfold validate_status at h
      cases hb : b with
      | false => rw [hb] at h; simp at h
      | true =>
        rw [hb] at h
        simp at h
        exact ⟨rfl, h.symm⟩

theorem orderSerializerUpdate_status (stored : Order) (opt : Option String) :
    orderSerializerUpdate stored ⟨none, opt⟩
      = { stored with status := opt.getD stored.status } := by
  cases opt <;>
    simp [orderSerializerUpdate, baseOrderSaveUpdate, persistUpdateFields, writeField]

/-- C7: Delivery address immutability: a PATCH on an existing order whose
payload contains `delivery_address` is rejected with a ValidationError
(400) whatever else the payload contains, and every successful PATCH
leaves the stored delivery address unchanged. -/
theorem delivery_address_immutable :
    (∀ (b : Bool) (stored : Order) (payload : OrderPatchPayload) (a : Nat),
      payload.delivery_address = some a →
      patchOrder b stored payload = .error .validation)
    ∧ (∀ (b : Bool) (stored : Order) (payload : OrderPatchPayload) (res : Order),
      patchOrder b stored payload = .ok res →
      res.delivery_address = stored.delivery_address) := by
  constructor
  · intro b stored payload a ha
    unfold patchOrder patchValidate
    rw [ha]
    rfl
  · intro b stored payload res h
    rcases patchOrder_ok_inv b stored payload res h with ⟨_, rfl⟩
    rw [orderSerializerUpdate_status]

/-- Witness for C7: a PATCH carrying both a delivery address and a status
change is rejected with ValidationError. -/
theorem delivery_address_immutable_witness :
    patchOrder true ⟨7, ⟨1, 5, 10, true⟩, 2, 20, 4, "created"⟩
      ⟨some 3, some "confirmed"⟩ = .error .validation :=
  delivery_address_immutable.1 true ⟨7, ⟨1, 5, 10, true⟩, 2, 20, 4, "created"⟩
    ⟨some 3, some "confirmed"⟩ 3 rfl

/-- C8: Order update frame condition: a successful status PATCH writes only
the status column: quantity, total price, customer, product reference and
delivery address keep exactly their stored values — in particular the
stored total price is not re-persisted from the product's current price,
even though `BaseOrder.save` recomputes it on the in-memory instance. -/
theorem order_update_frame (b : Bool) (stored : Order) (s : String) (res : Order)
    (h : patchOrder b stored ⟨none, some s⟩ = .ok res) :
    res.status = s ∧ res.quantity = stored.quantity
      ∧ res.total_price = stored.total_price ∧ res.customer = stored.customer
      ∧ res.product = stored.product
      ∧ res.delivery_address = stored.delivery_address := by
  rcases patchOrder_ok_inv b stored ⟨none, some s⟩ res h with ⟨_, rfl⟩
  rw [orderSerializerUpdate_status]
  exact ⟨rfl, rfl, rfl, rfl, rfl, rfl⟩

/-- Witness for C8: a status update on an order whose stored total price
(20) differs from the product's current price times quantity (99 × 2)
changes only the status and keeps the stored total price 20. -/
theorem order_update_frame_witness :
    (⟨7, ⟨1, 5, 99, true⟩, 2, 20, 4, "confirmed"⟩ : Order).status = "confirmed"
      ∧ (⟨7, ⟨1, 5, 99, true⟩, 2, 20, 4, "confirmed"⟩ : Order).quantity
        = (⟨7, ⟨1, 5, 99, true⟩, 2, 20, 4, "created"⟩ : Order).quantity
      ∧ (⟨7, ⟨1, 5, 99, true⟩, 2, 20, 4, "confirmed"⟩ : Order).total_price
        = (⟨7, ⟨1, 5, 99, true⟩, 2, 20, 4, "created"⟩ : Order).total_price
      ∧ (⟨7, ⟨1, 5, 99, true⟩, 2, 20, 4, "confirmed"⟩ : Order).customer
        = (⟨7, ⟨1, 5, 99, true⟩, 2, 20, 4, "created"⟩ : Order).customer
      ∧ (⟨7, ⟨1, 5, 99, true⟩, 2, 20, 4, "confirmed"⟩ : Order).product
        = (⟨7, ⟨1, 5, 99, true⟩, 2, 20, 4, "created"⟩ : Order).product
      ∧ (⟨7, ⟨1, 5, 99, true⟩, 2, 20, 4, "confirmed"⟩ : Order).delivery_address
        = (⟨7, ⟨1, 5, 99, true⟩, 2, 20, 4, "created"⟩ : Order).delivery_address :=
  order_update_frame true ⟨7, ⟨1, 5, 99, true⟩, 2, 20, 4, "created"⟩ "confirmed"
    ⟨7, ⟨1, 5, 99, true⟩, 2, 20, 4, "confirmed"⟩ rfl

/-- C9 counterexample: a `POST /cart` request with quantity 0 against an
available stock line with 5 units passes both the field-level bound
(`min_value = 0`) and the two object-level checks (`check_quantity` only
rejects `on_stock < in_order`), so the Cart layer accepts it and creates a
cart line with quantity 0 and total price 0 — refuting the claim that any
requested quantity ≤ 0 fails with a validation error. -/
theorem cart_zero_quantity_accepted :
    addLine [⟨1, 5, 10, true⟩] 7 1 42 0
      = Except.ok ⟨42, 7, ⟨1, 5, 10, true⟩, 0, 0⟩ := rfl

/-- C9 (amended): a requested quantity that is strictly negative is
rejected at the Cart layer with a validation error, for both cart-line
creation and cart-line update, and no cart line is created or changed; a
requested quantity of exactly 0, however, passes validation against any
available stock line with non-negative quantity and creates a cart line
with quantity 0 and total price 0, which the confirmation engine can then
receive. -/
theorem cart_negative_quantity_rejected :
    (∀ (db : StockDB) (c sid idn : Nat) (q : Int), q < 0 →
      addLine db c sid idn q = .error .validation)
    ∧ (∀ (db : StockDB) (line : CartLine) (sid : Nat) (q : Int), q < 0 →
      updateLine db line sid q = .error .validation)
    ∧ (∀ (db : StockDB) (c sid idn : Nat) (stock : Stock),
      findStock db sid = some stock → stock.can_buy = true → 0 ≤ stock.quantity →
      addLine db c sid idn 0 = .ok ⟨idn, c, stock, 0, 0⟩) := by
  refine ⟨?_, ?_, ?_⟩
  · intro db c sid idn q hq
    have hv : quantityFieldValid q = false := by
      unfold quantityFieldValid
      simp only [Bool.and_eq_false_iff, decide_eq_false_iff_not, not_le]
      exact Or.inl hq
    simp [addLine, hv]
  · intro db line sid q hq
    have hv : quantityFieldValid q = false := by
      unfold quantityFieldValid
      simp only [Bool.and_eq_false_iff, decide_eq_false_iff_not, not_le]
      exact Or.inl hq
    simp [updateLine, hv]
  · intro db c sid idn stock hfind hbuy hq
    have hnl : ¬ stock.quantity < 0 := not_lt.mpr hq
    simp [addLine, quantityFieldValid, hfind, check_availability, check_quantity,
      hbuy, hnl, computeTotalPrice]

/-- Witness for the amended C9: a request with quantity −1 is rejected,
and quantity 0 against an available 5-unit stock line is accepted. -/
theorem cart_negative_quantity_rejected_witness :
    addLine [⟨1, 5, 10, true⟩] 7 1 42 (-1) = .error .validation
      ∧ addLine [⟨1, 5, 10, true⟩] 7 1 43 0 = .ok ⟨43, 7, ⟨1, 5, 10, true⟩, 0, 0⟩ :=
  ⟨cart_negative_quantity_rejected.1 [⟨1, 5, 10, true⟩] 7 1 42 (-1) (by decide),
   cart_negative_quantity_rejected.2.2 [⟨1, 5, 10, true⟩] 7 1 43 ⟨1, 5, 10, true⟩
     (by decide) rfl (by decide)⟩

/-- C10: Order price is recomputed, not copied from the cart: the per-line
fresh re-read (`refresh_from_db(fields=["quantity", "can_buy"])`) never
changes the cached instance's price; a line passing re-validation creates
exactly one order whose total price is the line's quantity times the price
held on the cached stock instance, with the cart line's stored total price
ignored; and in a concrete history in which the shop raises the price from
10 to 15 between cart-add and confirmation, the created order's total
price (30) differs from the deleted cart line's stored total price (20). -/
theorem order_price_recomputed :
    (∀ (db : StockDB) (s s' : Stock), refreshFromDb db s = some s' →
      s'.price = s.price)
    ∧ (∀ (addr : Nat) (st : EngineState) (line : CartLine) (row : Stock),
      findStock st.db line.product.id = some row → row.can_buy = true →
      (line.quantity : Int) ≤ row.quantity →
      ∃ o, (confirmLine addr st line).orders = st.orders ++ [o]
        ∧ o.total_price = line.product.price * line.quantity)
    ∧ (addLine [⟨1, 5, 10, true⟩] 7 1 42 2 = .ok ⟨42, 7, ⟨1, 5, 10, true⟩, 2, 20⟩
      ∧ fetchCartLine [⟨1, 5, 15, true⟩] ⟨42, 7, ⟨1, 5, 10, true⟩, 2, 20⟩
          = some ⟨42, 7, ⟨1, 5, 15, true⟩, 2, 20⟩
      ∧ (confirmCreate 9 [⟨1, 5, 15, true⟩]
          [⟨42, 7, ⟨1, 5, 15, true⟩, 2, 20⟩]).orders.map Order.total_price = [30]
      ∧ (30 : Nat) ≠ 20) := by
  refine ⟨?_, ?_, rfl, rfl, rfl, by decide⟩
  · intro db s s' h
    unfold refreshFromDb at h
    cases hf : findStock db s.id with
    | none => rw [hf] at h; cases h
    | some row =>
      rw [hf] at h
      cases h
      rfl
  · intro addr st line row hfind hbuy hq
    rw [confirmLine_pass addr st line row hfind hbuy hq]
    exact ⟨_, rfl, rfl⟩

/-- Witness for C10: the passing line with cached price 15 and quantity 2
creates one order with total price 30. -/
theorem order_price_recomputed_witness :
    ∃ o, (confirmLine 9 ⟨[⟨1, 5, 15, true⟩], [], []⟩
        ⟨42, 7, ⟨1, 5, 15, true⟩, 2, 20⟩).orders = [o] ∧ o.total_price = 30 :=
  order_price_recomputed.2.1 9 ⟨[⟨1, 5, 15, true⟩], [], []⟩
    ⟨42, 7, ⟨1, 5, 15, true⟩, 2, 20⟩ ⟨1, 5, 15, true⟩ (by decide) rfl (by decide)

end Autopurchases
